import Mathlib

/-!
Verification of the aquatone pipeline (github.com/mk990/aquatone) against its
natural-language specification.  Each Go function relevant to the claims is
shallowly embedded as an executable Lean definition; machine integers are
modelled as `Int`/`Nat`, Go `*T` pointers as `Option T`, Go maps iterated by
`range` as association lists in their (fixed) iteration order, and external
effects (TCP dials, subprocesses, file system) as explicit outcome records
passed in as data.
-/

namespace Aquatone

/-! ## Options (src/core/options.go)

Go's `Options` struct holds pointers; `ParseOptions` always returns a struct
whose pointers all point at the parsed flag variables, so none of them is
ever nil.  A pointer field is modelled as `Option`, the flag variables as a
`Flags` record, and the cobra defaults (`IntVarP`/`StringVarP`/`BoolVarP`
third argument) as `defaultFlags`. -/

structure Flags where
  threads : Int
  outDir : String
  sessionPath : String
  templatePath : String
  proxy : String
  chromePath : String
  resolution : String
  scanTimeout : Int
  httpTimeout : Int
  screenshotTimeout : Int
  nmap : Bool
  saveBody : Bool
  silent : Bool
  debug : Bool
  version : Bool
deriving Repr, DecidableEq

/-- Flag defaults registered in `ParseOptions` (src/core/options.go lines
58-78): `threads` defaults to 0, `scan-timeout` to 100, `http-timeout` to
3000, `screenshot-timeout` to 30000. -/
def defaultFlags : Flags :=
  { threads := 0
    outDir := "."
    sessionPath := ""
    templatePath := ""
    proxy := ""
    chromePath := ""
    resolution := "1440,900"
    scanTimeout := 100
    httpTimeout := 3000
    screenshotTimeout := 30000
    nmap := false
    saveBody := true
    silent := false
    debug := false
    version := false }

structure Options where
  threads : Option Int
  scanTimeout : Option Int
  httpTimeout : Option Int
  screenshotTimeout : Option Int
deriving Repr, DecidableEq

/-- The struct literal returned by `ParseOptions` (src/core/options.go lines
90-107): every pointer field is set to the address of the corresponding flag
variable, hence `some` of the flag's value — never `none`. -/
def ParseOptions (f : Flags) : Options :=
  { threads := some f.threads
    scanTimeout := some f.scanTimeout
    httpTimeout := some f.httpTimeout
    screenshotTimeout := some f.screenshotTimeout }

/-! ## TCPPortScanner.Register (src/agents/tcp_port_scanner.go lines 30-45)

`Register` sizes the `scanWorker` semaphore channel:
`concurrentScans := 100; if Options.Threads != nil { concurrentScans = *Threads }`. -/

/-- Capacity of the `scanWorker` channel created in `TCPPortScanner.Register`:
100 when `Options.Threads` is nil, otherwise the pointed-to value. -/
def registerConcurrentScans (threads : Option Int) : Int :=
  match threads with
  | none => 100
  | some t => t

/-! ## URLScreenshotter.screenshotPage deadline
(src/agents/url_screenshotter.go line 167)

The Go expression is
`context.WithTimeout(ctx, time.Duration(*Options.ScreenshotTimeout*1000)*time.Millisecond)`;
`time.Duration(n) * time.Millisecond` is `n` milliseconds, so the context
deadline in milliseconds is the option value multiplied by 1000. -/

/-- Deadline, in milliseconds, of the context under which the Chrome
subprocess is started for one page: `ScreenshotTimeout * 1000`. -/
def screenshotDeadlineMs (screenshotTimeoutMs : Int) : Int :=
  screenshotTimeoutMs * 1000

/-! ## Header security classification (core, src/unnamed/part_001 lines 15-73) -/

structure Header where
  Name : String
  Value : String
  DecreasesSecurity : Bool
  IncreasesSecurity : Bool
deriving Repr, DecidableEq

/-- Table `degradingSecurityHeaders`: lowercased header name to value
predicate (part_001 lines 23-31). -/
def degradingSecurityHeaders (lowerName : String) : Option (String → Bool) :=
  if lowerName = "server" then some fun _ => true
  else if lowerName = "wpe-backend" then some fun _ => true
  else if lowerName = "x-powered-by" then some fun _ => true
  else if lowerName = "x-cf-powered-by" then some fun _ => true
  else if lowerName = "x-pingback" then some fun _ => true
  else if lowerName = "access-control-allow-origin" then some fun value => value = "*"
  else if lowerName = "x-xss-protection" then some fun value => !value.startsWith "1"
  else none

/-- Table `increasingSecurityHeaders`: lowercased header name to value
predicate (part_001 lines 33-43). -/
def increasingSecurityHeaders (lowerName : String) : Option (String → Bool) :=
  if lowerName = "content-security-policy" then some fun _ => true
  else if lowerName = "content-security-policy-report-only" then some fun _ => true
  else if lowerName = "strict-transport-security" then some fun _ => true
  else if lowerName = "x-frame-options" then some fun _ => true
  else if lowerName = "referrer-policy" then some fun _ => true
  else if lowerName = "public-key-pins" then some fun _ => true
  else if lowerName = "x-permitted-cross-domain-policies" then
    some fun value => value.toLower = "master-only"
  else if lowerName = "x-content-type-options" then
    some fun value => value.toLower = "nosniff"
  else if lowerName = "x-xss-protection" then some fun value => value.startsWith "1"
  else none

/-- Method `Header.decreasesSecurity` (part_001 lines 59-65): look the
lowercased name up in the degrading table and apply the predicate to the
value; absent names classify as false. -/
def Header.decreasesSecurity (h : Header) : Bool :=
  match degradingSecurityHeaders h.Name.toLower with
  | some checkFunc => checkFunc h.Value
  | none => false

/-- Method `Header.increasesSecurity` (part_001 lines 67-73). -/
def Header.increasesSecurity (h : Header) : Bool :=
  match increasingSecurityHeaders h.Name.toLower with
  | some checkFunc => checkFunc h.Value
  | none => false

/-- Method `Header.SetSecurityFlags` (part_001 lines 46-57): an
if / else-if / else chain that assigns both boolean flags in every branch. -/
def Header.SetSecurityFlags (h : Header) : Header :=
  if h.decreasesSecurity then
    { h with DecreasesSecurity := true, IncreasesSecurity := false }
  else if h.increasesSecurity then
    { h with DecreasesSecurity := false, IncreasesSecurity := true }
  else
    { h with DecreasesSecurity := false, IncreasesSecurity := false }

/-! ## TCPPortScanner port scanning
(src/agents/tcp_port_scanner.go lines 82-170)

One attempt against `host:port` has three externally determined outcomes:
whether `dialer.DialContext` succeeds, whether `conn.SetReadDeadline`
succeeds, and whether the 1-byte `conn.Read` succeeds.  Go's `net` API
returns a non-nil `conn` exactly when `DialContext` returns a nil error, so
the defensive `conn != nil` check coincides with dial success. -/

structure DialAttempt where
  dialOk : Bool
  deadlineOk : Bool
  readOk : Bool
deriving Repr, DecidableEq

/-- Function `scanPort` (tcp_port_scanner.go lines 114-170): false on dial
error; after a successful dial, false when `SetReadDeadline` errors; a
`Read` error is only logged and the function still returns true. -/
def scanPort (a : DialAttempt) : Bool :=
  if !a.dialOk then false
  else if !a.deadlineOk then false
  else true

/-- Delay, in milliseconds, slept between the two attempts
(`time.Sleep(500 * time.Millisecond)`, tcp_port_scanner.go line 87). -/
def retryDelayMs : Nat := 500

/-- Bound on attempts per port (`attempts < 2`, tcp_port_scanner.go
line 84). -/
def maxAttempts : Nat := 2

/-- Retry loop in the per-port goroutine of `OnHost` (lines 82-93):
`for attempts := 0; attempts < 2 && !success; attempts++`, so the second
attempt runs only when the first one failed. -/
def portOpenAfterRetries (attempts : Fin maxAttempts → DialAttempt) : Bool :=
  if scanPort (attempts ⟨0, by decide⟩) then true
  else scanPort (attempts ⟨1, by decide⟩)

/-- Events published on the bus, as far as the claims need them. -/
inductive Event where
  | tcpPort (port : Int) (host : String)
  | url (u : String)
  | host (h : String)
deriving Repr, DecidableEq

/-- Statistics deltas and bus publications of one per-port goroutine. -/
structure PortScanEffect where
  portOpenDelta : Nat
  portClosedDelta : Nat
  published : List Event
deriving Repr, DecidableEq

/-- Tail of the per-port goroutine (lines 95-102): on success increment
`PortOpen` and publish `TCPPort(port, host)`; otherwise increment
`PortClosed` and publish nothing. -/
def portScanEffect (attempts : Fin maxAttempts → DialAttempt) (port : Int)
    (host : String) : PortScanEffect :=
  if portOpenAfterRetries attempts then
    { portOpenDelta := 1, portClosedDelta := 0
      published := [Event.tcpPort port host] }
  else
    { portOpenDelta := 0, portClosedDelta := 1, published := [] }

/-! ## Target dispatch (driver, src/unnamed/part_000 lines 23-39 and 165-184)

`isURL` and `hasSupportedScheme` both call `url.ParseRequestURI`, a pure Go
standard-library function; it is abstracted here as a function
`parse : String → Option GoURL` returning the parsed record on success and
`none` on a parse error.  Both call sites receive the same result because
the input string is the same. -/

structure GoURL where
  scheme : String
  host : String
  path : String
  fragment : String
  query : String
deriving Repr, DecidableEq

/-- Function `isURL` (part_000 lines 24-30): parse succeeds and the scheme
is non-empty. -/
def isURL (parse : String → Option GoURL) (s : String) : Bool :=
  match parse s with
  | none => false
  | some u => u.scheme != ""

/-- Function `hasSupportedScheme` (part_000 lines 33-39): parse succeeds and
the scheme is `http` or `https`. -/
def hasSupportedScheme (parse : String → Option GoURL) (s : String) : Bool :=
  match parse s with
  | none => false
  | some u => u.scheme = "http" || u.scheme = "https"

/-- Per-target branch of `processTargets` (part_000 lines 167-175): an
http(s) URL is published as a `URL` event, a target that is not a
URI-with-scheme as a `Host` event, and a URI with any other scheme is
dropped without publishing anything. -/
def processTarget (parse : String → Option GoURL) (target : String) :
    List Event :=
  if isURL parse target then
    if hasSupportedScheme parse target then [Event.url target] else []
  else
    [Event.host target]

/-! ## Post-processing control flow (driver, src/unnamed/part_000)

The externally determined outcomes of the post-drain phase: whether opening
`aquatone_urls.txt` succeeds (`analyzePages`, lines 189-201), whether the
report template read / report file open / render succeed
(`generateHTMLReport`, lines 258-289), and whether `SaveToFile` succeeds
(`saveSessionAndPrintStats`, lines 292-300). -/

structure PostEnv where
  urlsOpenOk : Bool
  templateOk : Bool
  reportOpenOk : Bool
  renderOk : Bool
  saveOk : Bool
deriving Repr, DecidableEq

/-- Result of `analyzePages` as far as error handling goes: whether the
failure to open the URLs file was logged, whether the clustering loop still
ran, and the returned error.  The function logs the open failure and keeps
going (lines 190-201); its only `return` is `return nil` (line 254). -/
structure AnalyzeResult where
  urlsErrorLogged : Bool
  clusteringRan : Bool
  err : Option String
deriving Repr, DecidableEq

/-- Error-handling skeleton of `analyzePages` (part_000 lines 187-255). -/
def analyzePagesOutcome (e : PostEnv) : AnalyzeResult :=
  { urlsErrorLogged := !e.urlsOpenOk
    clusteringRan := true
    err := none }

/-- Error result of `generateHTMLReport` (part_000 lines 258-289): an error
when the template read, the report-file open, or the render fails. -/
def generateHTMLReportOutcome (e : PostEnv) : Option String :=
  if !e.templateOk then some "read template"
  else if !e.reportOpenOk then some "open report file"
  else if !e.renderOk then some "render report"
  else none

/-- Error result of `saveSessionAndPrintStats` (part_000 lines 292-320): a
`SaveToFile` failure is logged via `Out.Error` and the function still
returns nil. -/
structure SaveResult where
  saveErrorLogged : Bool
  err : Option String
deriving Repr, DecidableEq

def saveSessionOutcome (e : PostEnv) : SaveResult :=
  { saveErrorLogged := !e.saveOk, err := none }

/-- How the run ends: `exited c` for `os.Exit(c)`, `completed` for falling
off the end of `main`. -/
inductive RunEnd where
  | exited (code : Nat)
  | completed
deriving Repr, DecidableEq

structure PostRunResult where
  urlsErrorLogged : Bool
  clusteringRan : Bool
  reportAttempted : Bool
  saveAttempted : Bool
  saveErrorLogged : Bool
  runEnd : RunEnd
deriving Repr, DecidableEq

/-- Post-drain tail of `main` (part_000 lines 365-381): a non-nil error from
`analyzePages` is only logged and execution continues; a non-nil error from
`generateHTMLReport` is fatal via `Out.Fatal` + `os.Exit(1)`; a non-nil
error from `saveSessionAndPrintStats` is only logged. -/
def mainPostProcessing (e : PostEnv) : PostRunResult :=
  let a := analyzePagesOutcome e
  match generateHTMLReportOutcome e with
  | some _ =>
    { urlsErrorLogged := a.urlsErrorLogged
      clusteringRan := a.clusteringRan
      reportAttempted := true
      saveAttempted := false
      saveErrorLogged := false
      runEnd := RunEnd.exited 1 }
  | none =>
    let s := saveSessionOutcome e
    { urlsErrorLogged := a.urlsErrorLogged
      clusteringRan := a.clusteringRan
      reportAttempted := true
      saveAttempted := true
      saveErrorLogged := s.saveErrorLogged
      runEnd := RunEnd.completed }

/-! ## SHA-1 (Go `crypto/sha1`, used by `Page.BaseFilename`)

A byte-level implementation of FIPS 180-1 SHA-1 over `List Nat` (each entry
a byte), with 32-bit words as `Nat` reduced modulo `2^32`. -/

/-- Reduce to a 32-bit word. -/
def m32 (x : Nat) : Nat := x % 4294967296

/-- Left rotation of a 32-bit word by `k` bits. -/
def rotl (x k : Nat) : Nat := m32 (x * 2 ^ k) + x / 2 ^ (32 - k)

/-- Bitwise complement of a 32-bit word. -/
def not32 (x : Nat) : Nat := 4294967295 - x

/-- UTF-8 encoding of one Unicode code point. -/
def utf8EncodeCodePoint (c : Nat) : List Nat :=
  if c < 128 then [c]
  else if c < 2048 then [192 + c / 64, 128 + c % 64]
  else if c < 65536 then [224 + c / 4096, 128 + c / 64 % 64, 128 + c % 64]
  else [240 + c / 262144, 128 + c / 4096 % 64, 128 + c / 64 % 64, 128 + c % 64]

/-- The UTF-8 bytes of a string (Go strings are UTF-8; `io.WriteString`
feeds exactly these bytes to the hash). -/
def strBytes (s : String) : List Nat :=
  (s.data.map fun c => utf8EncodeCodePoint c.toNat).flatten

/-- Big-endian byte expansion: `n` bytes of `x`. -/
def beBytes (n : Nat) (x : Nat) : List Nat :=
  (List.range n).map fun i => x / 256 ^ (n - 1 - i) % 256

/-- SHA-1 padding: a 0x80 byte, zeros to 56 mod 64, then the bit length as
a 64-bit big-endian integer. -/
def sha1Pad (msg : List Nat) : List Nat :=
  msg ++ [128] ++ List.replicate ((119 - msg.length % 64) % 64) 0
      ++ beBytes 8 (msg.length * 8)

structure Sha1State where
  h0 : Nat
  h1 : Nat
  h2 : Nat
  h3 : Nat
  h4 : Nat
deriving Repr, DecidableEq

def sha1Init : Sha1State :=
  { h0 := 1732584193, h1 := 4023233417, h2 := 2562383102
    h3 := 271733878, h4 := 3285377520 }

/-- The 80-word message schedule of one 64-byte block. -/
def sha1Schedule (block : List Nat) : Array Nat :=
  let w0 : Array Nat := ((List.range 16).map fun i =>
    block.getD (4 * i) 0 * 16777216 + block.getD (4 * i + 1) 0 * 65536
      + block.getD (4 * i + 2) 0 * 256 + block.getD (4 * i + 3) 0).toArray
  (List.range 64).foldl (fun w _ =>
    w.push (rotl (Nat.xor
      (Nat.xor (w.getD (w.size - 3) 0) (w.getD (w.size - 8) 0))
      (Nat.xor (w.getD (w.size - 14) 0) (w.getD (w.size - 16) 0))) 1)) w0

/-- Round function and constant for round `i`. -/
def sha1F (i b c d : Nat) : Nat × Nat :=
  if i < 20 then (Nat.lor (Nat.land b c) (Nat.land (not32 b) d), 1518500249)
  else if i < 40 then (Nat.xor (Nat.xor b c) d, 1859775393)
  else if i < 60 then
    (Nat.lor (Nat.lor (Nat.land b c) (Nat.land b d)) (Nat.land c d), 2400959708)
  else (Nat.xor (Nat.xor b c) d, 3395469782)

/-- Compression of one 64-byte block. -/
def sha1Block (st : Sha1State) (block : List Nat) : Sha1State :=
  let w := sha1Schedule block
  let r := (List.range 80).foldl (fun (t : Nat × Nat × Nat × Nat × Nat) i =>
    let (a, b, c, d, e) := t
    let (f, k) := sha1F i b c d
    (m32 (rotl a 5 + f + e + k + w.getD i 0), a, rotl b 30, c, d))
    (st.h0, st.h1, st.h2, st.h3, st.h4)
  let (a, b, c, d, e) := r
  { h0 := m32 (st.h0 + a), h1 := m32 (st.h1 + b), h2 := m32 (st.h2 + c)
    h3 := m32 (st.h3 + d), h4 := m32 (st.h4 + e) }

/-- SHA-1 digest of a byte list, as the five 32-bit state words. -/
def sha1Words (msg : List Nat) : Sha1State :=
  let padded := sha1Pad msg
  let nBlocks := padded.length / 64
  (List.range nBlocks).foldl
    (fun st i => sha1Block st ((padded.drop (64 * i)).take 64)) sha1Init

/-- Lowercase hex rendering of a number, zero-padded to `n` digits
(Go's `%x` on a byte slice yields two lowercase hex digits per byte). -/
def hexPad (n x : Nat) : List Char :=
  let ds := Nat.toDigits 16 x
  List.replicate (n - ds.length) '0' ++ ds

/-- Hex digest of SHA-1 over a string's UTF-8 bytes: the 40-character
lowercase string `fmt.Sprintf("%x", h.Sum(nil))` produces. -/
def sha1Hex (s : String) : String :=
  let w := sha1Words (strBytes s)
  String.mk (hexPad 8 w.h0 ++ hexPad 8 w.h1 ++ hexPad 8 w.h2
    ++ hexPad 8 w.h3 ++ hexPad 8 w.h4)

/-! ## Page.BaseFilename (core, src/unnamed/part_001 lines 154-165)

`BaseFilename` reads `p.ParsedURL()`, i.e. `url.Parse(p.URL)`; the embedding
takes the parsed `GoURL` record directly.  `u.Host` is the Go `Host` field
(hostname plus `:port` when a port is present); `u.Path` and `u.Fragment`
are the decoded path and fragment; the query string is not consulted. -/

/-- Call `strings.Replace(s, old, new, 1)` specialised to a one-character
pattern: replace the first occurrence only. -/
def replaceFirstChar (old : Char) (new : List Char) : List Char → List Char
  | [] => []
  | c :: rest =>
    if c = old then new ++ rest else c :: replaceFirstChar old new rest

/-- Call `strings.Replace(s, old, new, -1)` specialised to one-character
pattern and replacement: replace every occurrence. -/
def replaceAllChar (old new : Char) (s : List Char) : List Char :=
  s.map fun c => if c = old then new else c

/-- Method `Page.BaseFilename` (part_001 lines 154-165): the first 16 hex
characters of `SHA1(Path || Fragment)`, the host with the first `:` turned
into `__` and every `.` into `_`, and the whole
`scheme__host__hash` string lowercased. -/
def BaseFilename (u : GoURL) : String :=
  let pathHash := (sha1Hex (u.path ++ u.fragment)).take 16
  let host := String.mk (replaceFirstChar ':' ['_', '_'] u.host.data)
  let filename :=
    u.scheme ++ "__" ++ String.mk (replaceAllChar '.' '_' host.data)
      ++ "__" ++ pathHash
  filename.toLower

/-! ## Page-similarity clustering (driver, src/unnamed/part_000 lines 230-252)

The clustering loop iterates `session.Pages` (a Go map) and, inside, the Go
map `session.PageSimilarityClusters`.  Go gives both iterations an
unspecified order; the embedding takes the page iteration order as the
order of a `List ClPage` and keeps the cluster map as an association list in
its iteration order.  `session.GetPage` — whose body is not among the given
source files — is a URL lookup in `session.Pages`, abstracted as a function
`getPage : String → Option (List String)` from URL to the page's
`PageStructure`.  Cluster keys are `uuid.New().String()` values; all that
matters is freshness, so keys are modelled as naturals drawn from a
counter. -/

/-- One entry of `session.Pages` as the clustering loop uses it: the page's
URL and its `PageStructure`. -/
structure ClPage where
  url : String
  pageStructure : List String
deriving Repr, DecidableEq

/-- Longest-common-subsequence length of two token sequences. -/
def lcsLen : List String → List String → Nat
  | [], _ => 0
  | _ :: _, [] => 0
  | a :: as, b :: bs =>
    if a = b then lcsLen as bs + 1
    else max (lcsLen (a :: as) bs) (lcsLen as (b :: bs))
termination_by xs ys => xs.length + ys.length

/-- Modelled from the spec: `core.GetSimilarity` is not among the given
source files; the spec describes it as "the unified-diff-style similarity
ratio in [0,1] using a longest-common-subsequence-based measure (the same
metric used by a standard text-diff library's ratio)", i.e.
`2·M / (|A| + |B|)` with `M` the number of matched tokens (1 when both
sequences are empty). -/
def GetSimilarity (a b : List String) : Rat :=
  if a.length + b.length = 0 then 1
  else (2 * lcsLen a b : Rat) / ((a.length + b.length : Nat) : Rat)

/-- Inner member loop of the clustering pass (part_000 lines 234-241):
`addToCluster` stays true unless some member URL resolves to a page whose
structure has similarity below 0.80 with the candidate. -/
def acceptsCluster (sim : List String → List String → Rat)
    (getPage : String → Option (List String)) (ps : List String)
    (members : List String) : Bool :=
  members.all fun u =>
    match getPage u with
    | some ps2 => !decide (sim ps ps2 < (80 : Rat) / 100)
    | none => true

/-- Cluster loop of the clustering pass (part_000 lines 233-247): walk the
clusters in iteration order and append the page's URL to the first accepting
cluster; `none` when no cluster accepts. -/
def tryInsertPage (sim : List String → List String → Rat)
    (getPage : String → Option (List String)) (ps : List String) (u : String) :
    List (Nat × List String) → Option (List (Nat × List String))
  | [] => none
  | (cid, members) :: rest =>
    if acceptsCluster sim getPage ps members then
      some ((cid, members ++ [u]) :: rest)
    else
      match tryInsertPage sim getPage ps u rest with
      | some rest2 => some ((cid, members) :: rest2)
      | none => none

/-- The cluster map plus the supply of fresh cluster keys. -/
structure ClusterState where
  clusters : List (Nat × List String)
  fresh : Nat
deriving Repr, DecidableEq

/-- Body of the per-page step (part_000 lines 232-251): insert into the
first accepting cluster, or create a new singleton cluster under a fresh
key when `foundCluster` stays false. -/
def insertPage (sim : List String → List String → Rat)
    (getPage : String → Option (List String)) (st : ClusterState)
    (p : ClPage) : ClusterState :=
  match tryInsertPage sim getPage p.pageStructure p.url st.clusters with
  | some cs => { clusters := cs, fresh := st.fresh }
  | none =>
    { clusters := st.clusters ++ [(st.fresh, [p.url])], fresh := st.fresh + 1 }

/-- The whole clustering pass (part_000 lines 231-252): fold the per-page
step over the pages in iteration order. -/
def clusterPass (sim : List String → List String → Rat)
    (getPage : String → Option (List String)) (pages : List ClPage)
    (st : ClusterState) : ClusterState :=
  pages.foldl (insertPage sim getPage) st

/-- Total number of cluster memberships (pages counted with multiplicity). -/
def totalMembership (st : ClusterState) : Nat :=
  (st.clusters.map fun c => c.2.length).sum

/-- Whether two URLs currently share a cluster. -/
def inSameCluster (st : ClusterState) (u v : String) : Bool :=
  st.clusters.any fun c => u ∈ c.2 ∧ v ∈ c.2

/-- Sort key making page ordering by URL canonical: the URL followed by the
structure tokens (injective on `ClPage`). -/
def pageKey (p : ClPage) : List String := p.url :: p.pageStructure

/-- Pages sorted by URL (what the spec asks the iteration order to be). -/
def sortPagesByURL (pages : List ClPage) : List ClPage :=
  pages.mergeSort fun p q => decide (pageKey p ≤ pageKey q)

/-! ## Clustering lemmas -/

/-- Spec-side acceptance criterion: the candidate structure has similarity
at least 0.80 with every page already in the cluster (a member URL the
session cannot resolve imposes no constraint, matching the code's
`page2 != nil` guard). -/
def SimilarToAll (sim : List String → List String → Rat)
    (getPage : String → Option (List String)) (ps : List String)
    (members : List String) : Prop :=
  ∀ u ∈ members, ∀ ps2, getPage u = some ps2 → (80 : Rat) / 100 ≤ sim ps ps2

theorem acceptsCluster_iff (sim : List String → List String → Rat)
    (getPage : String → Option (List String)) (ps : List String)
    (members : List String) :
    acceptsCluster sim getPage ps members = true ↔
      SimilarToAll sim getPage ps members := by
  simp only [acceptsCluster, List.all_eq_true, SimilarToAll]
  constructor
  · intro h u hu ps2 hps2
    have hb := h u hu
    rw [hps2] at hb
    simpa [not_lt] using hb
  · intro h u hu
    cases hgp : getPage u with
    | none => simp
    | some ps2 => simpa [not_lt] using h u hu ps2 hgp

theorem acceptsCluster_eq_false (sim : List String → List String → Rat)
    (getPage : String → Option (List String)) (ps : List String)
    (members : List String) (h : ¬ SimilarToAll sim getPage ps members) :
    acceptsCluster sim getPage ps members = false := by
  rw [← Bool.not_eq_true, acceptsCluster_iff]
  exact h

theorem tryInsertPage_eq_none (sim : List String → List String → Rat)
    (getPage : String → Option (List String)) (ps : List String) (u : String)
    (cs : List (Nat × List String))
    (h : ∀ c ∈ cs, acceptsCluster sim getPage ps c.2 = false) :
    tryInsertPage sim getPage ps u cs = none := by
  induction cs with
  | nil => rfl
  | cons c rest ih =>
    obtain ⟨cid, members⟩ := c
    have hm : acceptsCluster sim getPage ps members = false :=
      h (cid, members) (by simp)
    simp only [tryInsertPage, hm, Bool.false_eq_true, if_false]
    rw [ih fun c hc => h c (by simp [hc])]

theorem tryInsertPage_eq_some (sim : List String → List String → Rat)
    (getPage : String → Option (List String)) (ps : List String) (u : String)
    (pre : List (Nat × List String)) (cid : Nat) (members : List String)
    (post : List (Nat × List String))
    (hpre : ∀ c ∈ pre, acceptsCluster sim getPage ps c.2 = false)
    (hacc : acceptsCluster sim getPage ps members = true) :
    tryInsertPage sim getPage ps u (pre ++ (cid, members) :: post) =
      some (pre ++ (cid, members ++ [u]) :: post) := by
  induction pre with
  | nil => simp [tryInsertPage, hacc]
  | cons c rest ih =>
    obtain ⟨cid0, m0⟩ := c
    have hm : acceptsCluster sim getPage ps m0 = false :=
      hpre (cid0, m0) (by simp)
    simp only [List.cons_append, tryInsertPage, hm, Bool.false_eq_true,
      if_false]
    rw [show rest.append ((cid, members) :: post) = rest ++ (cid, members) :: post
        from rfl, ih fun c hc => hpre c (by simp [hc])]

/-! ## Claims -/

/-- C1: the semaphore depth always equals a non-nil `Threads` value, but the
claimed default of 100 is wrong: `ParseOptions` always returns a non-nil
`Threads` pointer whose flag default is 0, so a run without `-t` sizes the
`scanWorker` channel at 0 (an unbuffered channel), not 100; the
`concurrentScans := 100` fallback is dead code. -/
theorem C1_default_semaphore_depth_is_zero :
    (∀ t : Int, registerConcurrentScans (some t) = t) ∧
    (ParseOptions defaultFlags).threads = some 0 ∧
    registerConcurrentScans (ParseOptions defaultFlags).threads = 0 ∧
    registerConcurrentScans (ParseOptions defaultFlags).threads ≠ 100 := by
  refine ⟨fun t => rfl, rfl, rfl, ?_⟩
  decide

/-- C2: the Chrome context deadline is `ScreenshotTimeout * 1000`
milliseconds, not `ScreenshotTimeout` milliseconds; at the default flag
value 30000 the deadline is 30000000 ms (30000 seconds), contradicting the
flag's own help text "Timeout in milliseconds for screenshots". -/
theorem C2_screenshot_deadline_is_seconds_not_milliseconds :
    (ParseOptions defaultFlags).screenshotTimeout = some 30000 ∧
    screenshotDeadlineMs 30000 = 30000000 ∧
    screenshotDeadlineMs 30000 ≠ 30000 ∧
    (∀ t : Int, 0 < t → screenshotDeadlineMs t ≠ t) := by
  refine ⟨rfl, rfl, by decide, fun t ht h => ?_⟩
  have : t * 1000 = t * 1 := by simpa [screenshotDeadlineMs] using h
  omega

/-- C3: a port is reported open — `PortOpen` incremented and a `TCPPort`
event published — exactly when one of the at most two attempts has both a
successful dial and a successful read-deadline setup; the 1-byte read
outcome is irrelevant; otherwise `PortClosed` is incremented and nothing is
published.  The retry gap constant is 500 ms and the attempt bound is 2. -/
theorem C3_port_open_iff_dial_and_deadline
    (attempts : Fin maxAttempts → DialAttempt) (port : Int) (host : String) :
    (portScanEffect attempts port host =
        { portOpenDelta := 1, portClosedDelta := 0
          published := [Event.tcpPort port host] } ↔
      ((attempts ⟨0, by decide⟩).dialOk ∧ (attempts ⟨0, by decide⟩).deadlineOk)
        ∨ ((attempts ⟨1, by decide⟩).dialOk ∧
            (attempts ⟨1, by decide⟩).deadlineOk)) ∧
    (portScanEffect attempts port host =
        { portOpenDelta := 1, portClosedDelta := 0
          published := [Event.tcpPort port host] }
      ∨ portScanEffect attempts port host =
        { portOpenDelta := 0, portClosedDelta := 1, published := [] }) ∧
    maxAttempts = 2 ∧ retryDelayMs = 500 := by
  refine ⟨?_, ?_, rfl, rfl⟩ <;>
  · simp only [portScanEffect, portOpenAfterRetries, scanPort]
    rcases h0 : attempts ⟨0, by decide⟩ with ⟨d0, l0, r0⟩
    rcases h1 : attempts ⟨1, by decide⟩ with ⟨d1, l1, r1⟩
    cases d0 <;> cases l0 <;> cases d1 <;> cases l1 <;> simp

/-- C7: after `SetSecurityFlags`, `DecreasesSecurity` and
`IncreasesSecurity` are never both true — every branch of the
if / else-if / else chain sets at least one of the two flags to false, so
even `x-xss-protection`, which appears in both classification tables,
cannot end up with both. -/
theorem C7_security_flags_mutually_exclusive (h : Header) :
    ((h.SetSecurityFlags).DecreasesSecurity
      && (h.SetSecurityFlags).IncreasesSecurity) = false := by
  unfold Header.SetSecurityFlags
  split
  · rfl
  · split <;> rfl

/-- C9: in post-processing, a failure to open `aquatone_urls.txt` is only
logged and the run still reaches clustering and report generation; a report
generation failure (template read, report-file open, or render) ends the
process with exit code 1; a failure to write `aquatone_session.json` is
logged as an error and the run still completes. -/
theorem C9_postprocessing_error_severities (e : PostEnv) :
    (mainPostProcessing e).clusteringRan = true ∧
    (e.urlsOpenOk = false → (mainPostProcessing e).urlsErrorLogged = true) ∧
    (mainPostProcessing e).reportAttempted = true ∧
    (e.renderOk = false → (mainPostProcessing e).runEnd = RunEnd.exited 1) ∧
    (generateHTMLReportOutcome e ≠ none →
      (mainPostProcessing e).runEnd = RunEnd.exited 1) ∧
    (generateHTMLReportOutcome e = none → e.saveOk = false →
      (mainPostProcessing e).saveErrorLogged = true ∧
      (mainPostProcessing e).runEnd = RunEnd.completed) := by
  rcases e with ⟨b1, b2, b3, b4, b5⟩
  cases b1 <;> cases b2 <;> cases b3 <;> cases b4 <;> cases b5 <;>
    simp [mainPostProcessing, analyzePagesOutcome, generateHTMLReportOutcome,
      saveSessionOutcome]

/-- C10: a stdin target that parses as a URI with a non-empty scheme other
than http or https is silently dropped (no `URL`, no `Host` event); a
target that does not parse as a URI with a scheme is published as a `Host`
event; an http(s) URL is published as a `URL` event. -/
theorem C10_target_dispatch (parse : String → Option GoURL) (t : String)
    (u : GoURL) :
    (parse t = some u → u.scheme ≠ "" → u.scheme ≠ "http" →
      u.scheme ≠ "https" → processTarget parse t = []) ∧
    (parse t = none → processTarget parse t = [Event.host t]) ∧
    (parse t = some u → u.scheme = "" → processTarget parse t = [Event.host t]) ∧
    (parse t = some u → (u.scheme = "http" ∨ u.scheme = "https") →
      processTarget parse t = [Event.url t]) := by
  refine ⟨?_, ?_, ?_, ?_⟩
  · intro hp h1 h2 h3
    simp [processTarget, isURL, hasSupportedScheme, hp, h1, h2, h3]
  · intro hp
    simp [processTarget, isURL, hp]
  · intro hp h
    simp [processTarget, isURL, hp, h]
  · intro hp h
    rcases h with h | h <;> simp [processTarget, isURL, hasSupportedScheme, hp, h]

/-- C4: given the fixed iteration order of the page map and of the cluster
map, each page joins the first existing cluster whose every resolvable
member has similarity at least 0.80 with it; when no cluster accepts, a new
singleton cluster is appended under the fresh key, and the key supply makes
that key distinct from every existing one. -/
theorem C4_greedy_first_accepting_cluster
    (sim : List String → List String → Rat)
    (getPage : String → Option (List String)) (st : ClusterState)
    (p : ClPage) :
    (∀ pre cid members post,
      st.clusters = pre ++ (cid, members) :: post →
      (∀ c ∈ pre, ¬ SimilarToAll sim getPage p.pageStructure c.2) →
      SimilarToAll sim getPage p.pageStructure members →
      insertPage sim getPage st p =
        { clusters := pre ++ (cid, members ++ [p.url]) :: post
          fresh := st.fresh }) ∧
    ((∀ c ∈ st.clusters, ¬ SimilarToAll sim getPage p.pageStructure c.2) →
      insertPage sim getPage st p =
        { clusters := st.clusters ++ [(st.fresh, [p.url])]
          fresh := st.fresh + 1 }) ∧
    ((∀ c ∈ st.clusters, c.1 < st.fresh) →
      st.fresh ∉ st.clusters.map Prod.fst) := by
  refine ⟨?_, ?_, ?_⟩
  · intro pre cid members post hsplit hpre hacc
    unfold insertPage
    rw [hsplit, tryInsertPage_eq_some sim getPage p.pageStructure p.url pre
      cid members post
      (fun c hc => acceptsCluster_eq_false _ _ _ _ (hpre c hc))
      ((acceptsCluster_iff _ _ _ _).mpr hacc)]
  · intro hnone
    unfold insertPage
    rw [tryInsertPage_eq_none sim getPage p.pageStructure p.url st.clusters
      (fun c hc => acceptsCluster_eq_false _ _ _ _ (hnone c hc))]
  · intro hlt hmem
    obtain ⟨c, hc, hfst⟩ := List.mem_map.mp hmem
    exact absurd (hlt c hc) (by omega)

/-- Similarity function used by the concrete C4 instantiation. -/
def simEq : List String → List String → Rat :=
  fun a b => if a = b then 1 else 0

/-- Page map used by the concrete C4 instantiation. -/
def gpC4 : String → Option (List String) := fun u =>
  if u = "x" then some ["s"] else if u = "y" then some ["t"] else none

/-- C4 witness: with two clusters of which only the second accepts, the page
is appended to the second cluster and the fresh counter is untouched. -/
theorem C4_greedy_witness :
    insertPage simEq gpC4
        { clusters := [(5, ["x"]), (7, ["y"])], fresh := 9 }
        { url := "z", pageStructure := ["t"] } =
      { clusters := [(5, ["x"]), (7, ["y", "z"])], fresh := 9 } := by
  have h := (C4_greedy_first_accepting_cluster simEq gpC4
    { clusters := [(5, ["x"]), (7, ["y"])], fresh := 9 }
    { url := "z", pageStructure := ["t"] }).1
    [(5, ["x"])] 7 ["y"] [] rfl ?_ ?_
  · exact h
  · intro c hc hsim
    have hc5 : c = ((5 : Nat), ["x"]) := by simpa using hc
    subst hc5
    have := hsim "x" (by simp) ["s"] rfl
    rw [show simEq ["t"] ["s"] = 0 by simp [simEq]] at this
    norm_num at this
  · intro u hu ps2 hps2
    have hu' : u = "y" := by simpa using hu
    subst hu'
    have hps : ps2 = ["t"] := by simpa [gpC4] using hps2.symm
    subst hps
    rw [show simEq ["t"] ["t"] = 1 by simp [simEq]]
    norm_num

theorem lcsLen_self (a : List String) : lcsLen a a = a.length := by
  induction a with
  | nil => simp [lcsLen]
  | cons x xs ih => simp [lcsLen, ih]

theorem GetSimilarity_self (a : List String) : GetSimilarity a a = 1 := by
  unfold GetSimilarity
  rw [lcsLen_self]
  rcases Nat.eq_zero_or_pos a.length with h | h
  · simp [h]
  · have hne : ¬(a.length + a.length = 0) := by omega
    rw [if_neg hne]
    have hpos : (0 : Rat) < (a.length : Rat) := by exact_mod_cast h
    push_cast
    have hne2 : (a.length : Rat) + (a.length : Rat) ≠ 0 := ne_of_gt (by linarith)
    rw [div_eq_one_iff_eq hne2]
    ring

theorem tryInsertPage_membership (sim : List String → List String → Rat)
    (getPage : String → Option (List String)) (ps : List String) (u : String)
    (cs cs' : List (Nat × List String))
    (h : tryInsertPage sim getPage ps u cs = some cs') :
    ((cs'.map fun c => c.2.length).sum) = ((cs.map fun c => c.2.length).sum) + 1 := by
  induction cs generalizing cs' with
  | nil => simp [tryInsertPage] at h
  | cons c rest ih =>
    obtain ⟨cid, members⟩ := c
    by_cases hacc : acceptsCluster sim getPage ps members = true
    · rw [tryInsertPage, if_pos hacc] at h
      obtain rfl : (cid, members ++ [u]) :: rest = cs' := Option.some.inj h
      simp only [List.map_cons, List.sum_cons, List.length_append,
        List.length_singleton]
      omega
    · rw [tryInsertPage, if_neg hacc] at h
      cases htry : tryInsertPage sim getPage ps u rest with
      | none => rw [htry] at h; exact absurd h (by simp)
      | some rest2 =>
        rw [htry] at h
        obtain rfl : (cid, members) :: rest2 = cs' := Option.some.inj h
        simp only [List.map_cons, List.sum_cons]
        rw [ih rest2 htry]
        omega

theorem insertPage_membership (sim : List String → List String → Rat)
    (getPage : String → Option (List String)) (st : ClusterState)
    (p : ClPage) :
    totalMembership (insertPage sim getPage st p) = totalMembership st + 1 := by
  unfold insertPage
  cases htry : tryInsertPage sim getPage p.pageStructure p.url st.clusters with
  | some cs =>
    simpa [totalMembership] using
      tryInsertPage_membership sim getPage p.pageStructure p.url st.clusters
        cs htry
  | none => simp [totalMembership]

theorem clusterPass_membership (sim : List String → List String → Rat)
    (getPage : String → Option (List String)) (pages : List ClPage)
    (st : ClusterState) :
    totalMembership (clusterPass sim getPage pages st) =
      totalMembership st + pages.length := by
  induction pages generalizing st with
  | nil => simp [clusterPass]
  | cons p rest ih =>
    show totalMembership (clusterPass sim getPage rest
      (insertPage sim getPage st p)) = totalMembership st + (rest.length + 1)
    rw [ih, insertPage_membership]
    omega

/-- C5: the clustering pass is not idempotent.  Each run of the loop at
part_000 lines 231-252 appends every page once more to the existing
`PageSimilarityClusters` (which it never resets), so running the pass twice
adds `2·|Pages|` memberships instead of `|Pages|` and the resulting
partition differs from a single run's whenever any page exists. -/
theorem C5_second_pass_duplicates_memberships
    (sim : List String → List String → Rat)
    (getPage : String → Option (List String)) (pages : List ClPage)
    (st : ClusterState) :
    totalMembership (clusterPass sim getPage pages st) =
      totalMembership st + pages.length ∧
    totalMembership (clusterPass sim getPage pages
        (clusterPass sim getPage pages st)) =
      totalMembership st + 2 * pages.length ∧
    (pages ≠ [] →
      clusterPass sim getPage pages (clusterPass sim getPage pages st) ≠
        clusterPass sim getPage pages st) := by
  refine ⟨clusterPass_membership sim getPage pages st, ?_, ?_⟩
  · rw [clusterPass_membership, clusterPass_membership]
    omega
  · intro hne heq
    have h1 := clusterPass_membership sim getPage pages st
    have h2 := clusterPass_membership sim getPage pages
      (clusterPass sim getPage pages st)
    rw [heq, h1] at h2
    have hlen : pages.length = 0 := by omega
    exact hne (List.length_eq_zero.mp hlen)

/-- Page map used by the C5 counterexample: one page. -/
def gpC5 : String → Option (List String) := fun u =>
  if u = "u" then some ["0html"] else none

/-- The single page of the C5 counterexample. -/
def pgC5 : ClPage := { url := "u", pageStructure := ["0html"] }

/-- C5 counterexample: with a single page whose structure is (necessarily)
1.0-similar to itself, one pass yields the singleton cluster `[u]` and a
second pass over the same `Pages` appends the page again, yielding
`[u, u]` — not the same partition. -/
theorem C5_counterexample :
    clusterPass GetSimilarity gpC5 [pgC5]
        (clusterPass GetSimilarity gpC5 [pgC5] { clusters := [], fresh := 0 }) ≠
      clusterPass GetSimilarity gpC5 [pgC5] { clusters := [], fresh := 0 } := by
  have hstep1 : clusterPass GetSimilarity gpC5 [pgC5]
      { clusters := [], fresh := 0 } =
      { clusters := [(0, ["u"])], fresh := 1 } := rfl
  have hacc : acceptsCluster GetSimilarity gpC5 ["0html"] ["u"] = true := by
    simp [acceptsCluster, gpC5, GetSimilarity_self,
      show ¬((1 : Rat) < 80 / 100) by norm_num]
  have hstep2 : clusterPass GetSimilarity gpC5 [pgC5]
      { clusters := [(0, ["u"])], fresh := 1 } =
      { clusters := [(0, ["u", "u"])], fresh := 1 } := by
    simp [clusterPass, insertPage, tryInsertPage, hacc, pgC5]
  rw [hstep1, hstep2]
  simp

/-! ## C6: iteration order of the page map -/

theorem pageKey_injective : Function.Injective pageKey := by
  intro p q h
  cases p
  cases q
  simpa [pageKey, ClPage.mk.injEq] using h

theorem sortPagesByURL_eq_of_perm (p1 p2 : List ClPage) (h : p1.Perm p2) :
    sortPagesByURL p1 = sortPagesByURL p2 := by
  have hperm : (sortPagesByURL p1).Perm (sortPagesByURL p2) :=
    ((List.mergeSort_perm p1 _).trans h).trans (List.mergeSort_perm p2 _).symm
  have htrans : ∀ a b c : ClPage, decide (pageKey a ≤ pageKey b) = true →
      decide (pageKey b ≤ pageKey c) = true →
      decide (pageKey a ≤ pageKey c) = true := by
    intro a b c hab hbc
    simp only [decide_eq_true_eq] at *
    exact le_trans hab hbc
  have htotal : ∀ a b : ClPage, (decide (pageKey a ≤ pageKey b)
      || decide (pageKey b ≤ pageKey a)) = true := by
    intro a b
    simp only [Bool.or_eq_true, decide_eq_true_eq]
    exact le_total _ _
  have hs1 := List.sorted_mergeSort htrans htotal p1
  have hs2 := List.sorted_mergeSort htrans htotal p2
  haveI : IsAntisymm ClPage (fun p q => pageKey p ≤ pageKey q) :=
    ⟨fun a b hab hba => pageKey_injective (le_antisymm hab hba)⟩
  refine List.eq_of_perm_of_sorted (r := fun p q => pageKey p ≤ pageKey q)
    hperm ?_ ?_
  · exact hs1.imp fun h => of_decide_eq_true h
  · exact hs2.imp fun h => of_decide_eq_true h

/-- C6 amended: had the pass iterated pages in a canonical URL-sorted order,
any two enumerations of the same page-map snapshot would produce the same
cluster layout. -/
theorem C6_sorted_iteration_is_stable (sim : List String → List String → Rat)
    (getPage : String → Option (List String)) (p1 p2 : List ClPage)
    (st : ClusterState) (h : p1.Perm p2) :
    clusterPass sim getPage (sortPagesByURL p1) st =
      clusterPass sim getPage (sortPagesByURL p2) st := by
  rw [sortPagesByURL_eq_of_perm p1 p2 h]

/-- Structures of the three C6 pages: `sC6B` extends `sC6A` by one token and
`sC6C` is the matching suffix of `sC6B`, so similarity is 8/9 for the two
adjacent pairs and 3/4 for the outer pair. -/
def sC6A : List String := ["t1", "t2", "t3", "t4"]

def sC6B : List String := ["t1", "t2", "t3", "t4", "t5"]

def sC6C : List String := ["t2", "t3", "t4", "t5"]

/-- Page map of the C6 counterexample. -/
def gpC6 : String → Option (List String) := fun u =>
  if u = "a" then some sC6A
  else if u = "b" then some sC6B
  else if u = "c" then some sC6C
  else none

/-- C6 pages in one enumeration order of the map snapshot. -/
def pagesC6a : List ClPage :=
  [{ url := "a", pageStructure := sC6A },
   { url := "b", pageStructure := sC6B },
   { url := "c", pageStructure := sC6C }]

/-- The same C6 pages in the opposite enumeration order. -/
def pagesC6b : List ClPage :=
  [{ url := "c", pageStructure := sC6C },
   { url := "b", pageStructure := sC6B },
   { url := "a", pageStructure := sC6A }]

theorem simC6_BA : GetSimilarity sC6B sC6A = 8 / 9 := by
  simp [GetSimilarity, sC6A, sC6B, lcsLen]
  norm_num

theorem simC6_CA : GetSimilarity sC6C sC6A = 3 / 4 := by
  simp [GetSimilarity, sC6A, sC6C, lcsLen]
  norm_num

theorem simC6_BC : GetSimilarity sC6B sC6C = 8 / 9 := by
  simp [GetSimilarity, sC6B, sC6C, lcsLen]
  norm_num

theorem simC6_AC : GetSimilarity sC6A sC6C = 3 / 4 := by
  simp [GetSimilarity, sC6A, sC6C, lcsLen]
  norm_num

/-- C6 counterexample: the same page-map snapshot enumerated in two orders
(both orders are permutations of each other) yields different cluster
layouts — pages `a` and `b` share a cluster under one order and do not
under the other, so the pass, which performs no sorting, is not stable
across enumeration orders. -/
theorem C6_counterexample :
    pagesC6a.Perm pagesC6b ∧
    inSameCluster (clusterPass GetSimilarity gpC6 pagesC6a
      { clusters := [], fresh := 0 }) "a" "b" = true ∧
    inSameCluster (clusterPass GetSimilarity gpC6 pagesC6b
      { clusters := [], fresh := 0 }) "a" "b" = false := by
  refine ⟨(List.reverse_perm pagesC6a).symm, ?_, ?_⟩
  · have hacc1 : acceptsCluster GetSimilarity gpC6 sC6B ["a"] = true := by
      simp [acceptsCluster, gpC6, simC6_BA,
        show ¬((8 : Rat) / 9 < 80 / 100) by norm_num]
    have hacc2 : acceptsCluster GetSimilarity gpC6 sC6C ["a", "b"] = false := by
      simp [acceptsCluster, gpC6, simC6_CA,
        show ((3 : Rat) / 4 < 80 / 100) by norm_num]
    have hpass : clusterPass GetSimilarity gpC6 pagesC6a
        { clusters := [], fresh := 0 } =
        { clusters := [(0, ["a", "b"]), (1, ["c"])], fresh := 2 } := by
      simp [clusterPass, pagesC6a, insertPage, tryInsertPage, hacc1, hacc2]
    rw [hpass]
    simp [inSameCluster]
  · have hacc3 : acceptsCluster GetSimilarity gpC6 sC6B ["c"] = true := by
      simp [acceptsCluster, gpC6, simC6_BC,
        show ¬((8 : Rat) / 9 < 80 / 100) by norm_num]
    have hacc4 : acceptsCluster GetSimilarity gpC6 sC6A ["c", "b"] = false := by
      simp [acceptsCluster, gpC6, simC6_AC,
        show ((3 : Rat) / 4 < 80 / 100) by norm_num]
    have hpass : clusterPass GetSimilarity gpC6 pagesC6b
        { clusters := [], fresh := 0 } =
        { clusters := [(0, ["c", "b"]), (1, ["a"])], fresh := 2 } := by
      simp [clusterPass, pagesC6b, insertPage, tryInsertPage, hacc3, hacc4]
    rw [hpass]
    simp [inSameCluster]

/-- C6 witness for the amended theorem: the two concrete enumeration orders
of the counterexample, once sorted by URL, produce identical layouts. -/
theorem C6_sorted_witness :
    clusterPass GetSimilarity gpC6 (sortPagesByURL pagesC6a)
      { clusters := [], fresh := 0 } =
    clusterPass GetSimilarity gpC6 (sortPagesByURL pagesC6b)
      { clusters := [], fresh := 0 } :=
  C6_sorted_iteration_is_stable GetSimilarity gpC6 pagesC6a pagesC6b
    { clusters := [], fresh := 0 } ((List.reverse_perm pagesC6a).symm)

/-! ## C8: BaseFilename distinctness -/

/-- Parsed form of `http://example.com/ab`. -/
def urlC8a : GoURL :=
  { scheme := "http", host := "example.com", path := "/ab", fragment := ""
    query := "" }

/-- Parsed form of `http://example.com/a#b`. -/
def urlC8b : GoURL :=
  { scheme := "http", host := "example.com", path := "/a", fragment := "b"
    query := "" }

/-- C8 counterexample: `http://example.com/ab` and `http://example.com/a#b`
differ only in path and fragment (scheme, host and query agree), yet they
produce the same base filename, because the hash input is the unseparated
concatenation `Path || Fragment` and `"/ab" = "/a" ++ "b"`. -/
theorem C8_counterexample :
    urlC8a.scheme = urlC8b.scheme ∧ urlC8a.host = urlC8b.host ∧
    urlC8a.query = urlC8b.query ∧ urlC8a.path ≠ urlC8b.path ∧
    urlC8a.fragment ≠ urlC8b.fragment ∧
    BaseFilename urlC8a = BaseFilename urlC8b := by
  refine ⟨rfl, rfl, rfl, by decide, by decide, ?_⟩
  unfold BaseFilename
  rw [show urlC8a.path ++ urlC8a.fragment = "/ab" from rfl,
    show urlC8b.path ++ urlC8b.fragment = "/ab" from rfl,
    show urlC8a.host = urlC8b.host from rfl,
    show urlC8a.scheme = urlC8b.scheme from rfl]

/-- C8 amended: the base filename is a function of scheme, host and the
concatenation `Path || Fragment` alone.  Query strings are ignored (two
URLs differing only in query always collide, as the claim's second half
states), and two URLs differing only in path or fragment are distinct only
as far as `scheme__host__` plus the first 16 hex characters of
`SHA1(Path || Fragment)` distinguishes them — URLs whose path/fragment
concatenations coincide collide. -/
theorem C8_filename_determined_by_scheme_host_pathfragment (u1 u2 : GoURL)
    (hs : u1.scheme = u2.scheme) (hh : u1.host = u2.host)
    (hpf : u1.path ++ u1.fragment = u2.path ++ u2.fragment) :
    BaseFilename u1 = BaseFilename u2 := by
  unfold BaseFilename
  rw [hs, hh, hpf]

/-- C8 witness: two URLs differing only in their query string share a base
filename. -/
theorem C8_query_ignored_witness :
    BaseFilename
      { scheme := "http", host := "example.com", path := "/p", fragment := ""
        query := "a=1" } =
    BaseFilename
      { scheme := "http", host := "example.com", path := "/p", fragment := ""
        query := "b=2" } :=
  C8_filename_determined_by_scheme_host_pathfragment _ _ rfl rfl rfl

end Aquatone
